import Mathlib

/-!
# Snowflake identifier generator (`snowflake.go`)

A shallow embedding of the generator in `snowflake.go` and the properties of
its identifier packing, its `CreateID` step and its configuration setters.

Go's `int64` values are integers kept in `[-2^63, 2^63)`; every arithmetic
operation of the source that can leave that interval is followed by an explicit
reduction modulo `2^64` (`wrap64`).  Bitwise operations act on the two's
complement bit pattern of their operands.

The wall clock is an input: every `time.Now().UnixMilli()` of the source is a
reading supplied by the caller of the embedded function, in the order in which
the source takes them.
-/

namespace SnowflakeGo

/-! ## 64-bit machine integers -/

/-- Reduction of an integer to the signed 64-bit value with the same bit pattern. -/
def wrap64 (x : Int) : Int := (x + 2 ^ 63) % 2 ^ 64 - 2 ^ 63

/-- Two's complement bit pattern of a 64-bit value, as a natural number below `2^64`. -/
def toBits (x : Int) : Nat := (x % 2 ^ 64).toNat

/-- Signed 64-bit value of a bit pattern. -/
def ofBits (n : Nat) : Int := wrap64 (n : Int)

/-- Go `a + b` on `int64`. -/
def add64 (a b : Int) : Int := wrap64 (a + b)

/-- Go `a - b` on `int64`. -/
def sub64 (a b : Int) : Int := wrap64 (a - b)

/-- Go `a & b` on `int64`. -/
def and64 (a b : Int) : Int := ofBits (toBits a &&& toBits b)

/-- Go `a | b` on `int64`. -/
def or64 (a b : Int) : Int := ofBits (toBits a ||| toBits b)

/-- Go `a << k` on `int64` with an unsigned shift count. -/
def shl64 (a : Int) (k : Nat) : Int := wrap64 (a * 2 ^ k)

/-- Go `a >> k` on `int64` (arithmetic shift: rounds towards minus infinity). -/
def shr64 (a : Int) (k : Nat) : Int := a / 2 ^ k

/-! ## The constant block (lines 11-23) -/

def timestampBits : Nat := 41
def workerBits : Nat := 4
def datacenterBits : Nat := 6
def seqBits : Nat := 12

/-- The constant expression `-1 ^ (-1 << bits)`: Go evaluates it exactly, on
unbounded integers, before converting to `int64`. -/
def maskOf (bits : Nat) : Int := Int.xor (-1) ((-1 : Int) <<< (bits : Int))

def timestampMax : Int := maskOf timestampBits
def workerMax : Int := maskOf workerBits
def datacenterMax : Int := maskOf datacenterBits
def seqMax : Int := maskOf seqBits
def workerShift : Nat := seqBits
def datacenterShift : Nat := seqBits + workerBits
def timestampShift : Nat := seqBits + workerBits + datacenterBits

/-! ## The generator state (lines 25-32) -/

/-- The fields of `type Snowflake struct`; the embedded mutex carries no data. -/
structure Snowflake where
  epoch : Int
  timestamp : Int
  worker : Int
  datacenter : Int
  seq : Int
  deriving DecidableEq, Repr

/-- The zero value of the struct. -/
def zero : Snowflake := ⟨0, 0, 0, 0, 0⟩

/-! ## Configuration setters (lines 34-57) -/

/-- Embedding of `SetWorker`.  The `logf.Errorf` call only writes a log line. -/
def SetWorker (s : Snowflake) (worker : Int) : Snowflake :=
  if worker > workerMax then
    { s with worker := 0 }
  else
    { s with worker := worker }

/-- Embedding of `SetDatacenter`.  The out-of-range branch assigns `s.worker`,
as line 46 does. -/
def SetDatacenter (s : Snowflake) (d : Int) : Snowflake :=
  if d > datacenterMax then
    { s with worker := 0 }
  else
    { s with datacenter := d }

/-- Embedding of `SetEpoch`.  `n1` is the clock reading of the condition on line 53
and `n2` the reading of the assignment on line 54; the second is only used when
the condition holds. -/
def SetEpoch (s : Snowflake) (epoch n1 n2 : Int) : Snowflake :=
  if epoch > n1 || epoch < 0 then
    { s with epoch := n2 }
  else
    { s with epoch := epoch }

/-! ## Identifier generation (lines 59-82) -/

/-- What one `CreateID` call leaves behind: the generator state, the two
returned values, and the clock readings the call did not consume. -/
structure CreateResult where
  state : Snowflake
  id : Int
  err : Option String
  rest : List Int
  deriving DecidableEq, Repr

/-- The loop of lines 68-70, `for now < s.timestamp { now = time.Now().UnixMilli() }`.
`ts` is `s.timestamp`, the list holds the readings the loop would obtain, in
order.  `none` means the loop is still running when the readings are used up. -/
def spinWait (ts : Int) : Int → List Int → Option (Int × List Int)
  | now, [] => if now < ts then none else some (now, [])
  | now, r :: rest => if now < ts then spinWait ts r rest else some (now, r :: rest)

/-- The expression returned on line 81. -/
def pack (t datacenter worker seq : Int) : Int :=
  or64 (or64 (or64 (shl64 t timestampShift) (shl64 datacenter datacenterShift))
    (shl64 worker workerShift)) seq

/-- The text of the error built on line 78. -/
def overflowMessage : String :=
  "epoch must be between 0 and " ++ toString (sub64 timestampMax 1)

/-- Lines 76-81: the elapsed time, the overflow check, the update of
`s.timestamp` and the packing. -/
def finish (s : Snowflake) (now : Int) (rest : List Int) : CreateResult :=
  let t := sub64 now s.epoch
  if t > timestampMax then
    { state := s, id := -1, err := some overflowMessage, rest := rest }
  else
    { state := { s with timestamp := now },
      id := pack t s.datacenter s.worker s.seq,
      err := none,
      rest := rest }

/-- Embedding of `CreateID`.  `now` is the reading of line 63 and `later` are the
readings that follow it.  The mutex is held for the whole call, so the call is
one atomic step.  `none` means that the call does not return. -/
def CreateID (s : Snowflake) (now : Int) (later : List Int) : Option CreateResult :=
  if now = s.timestamp then
    let s1 := { s with seq := and64 (add64 s.seq 1) seqMax }
    if s1.seq = 0 then
      match spinWait s1.timestamp now later with
      | none => none
      | some (now1, rest) => some (finish s1 now1 rest)
    else
      some (finish s1 now later)
  else
    some (finish { s with seq := 0 } now later)

/-- The sequence number a call leaves in the state (lines 64-74). -/
def nextSeq (s : Snowflake) (now : Int) : Int :=
  if now = s.timestamp then and64 (add64 s.seq 1) seqMax else 0

/-- A run of `n` consecutive `CreateID` calls against a clock that yields the
readings of `clock` in order.  The result lists, per call, the returned
identifier and error; `none` means that a call did not return or that the
readings were used up. -/
def run : Nat → Snowflake → List Int → Option (List (Int × Option String))
  | 0, _, _ => some []
  | _ + 1, _, [] => none
  | n + 1, s, now :: later =>
    match CreateID s now later with
    | none => none
    | some r =>
      match run n r.state r.rest with
      | none => none
      | some out => some ((r.id, r.err) :: out)

/-! ## The package-level generator (lines 84-99) -/

/-- The run-time panic raised when a field of a nil `*Snowflake` is accessed. -/
def nilDereference : String := "invalid memory address or nil pointer dereference"

/-- `SetWorker` called through a `*Snowflake`: `none` is the nil pointer.  Both
branches of the method assign `s.worker`, which panics on a nil receiver. -/
def SetWorkerAt (p : Option Snowflake) (worker : Int) : Except String Snowflake :=
  match p with
  | none => Except.error nilDereference
  | some s => Except.ok (SetWorker s worker)

/-- `SetDatacenter` called through a `*Snowflake`: both branches assign a field
of `s`, which panics on a nil receiver. -/
def SetDatacenterAt (p : Option Snowflake) (d : Int) : Except String Snowflake :=
  match p with
  | none => Except.error nilDereference
  | some s => Except.ok (SetDatacenter s d)

/-- `SetEpoch` called through a `*Snowflake`: line 56 assigns `s.epoch`, which
panics on a nil receiver. -/
def SetEpochAt (p : Option Snowflake) (epoch n1 n2 : Int) : Except String Snowflake :=
  match p with
  | none => Except.error nilDereference
  | some s => Except.ok (SetEpoch s epoch n1 n2)

/-- The zero value of `var snowflake *Snowflake` (line 84): the nil pointer.  No
statement of the package assigns the variable. -/
def snowflake : Option Snowflake := none

/-- Embedding of `New`: the three setters, in source order, through the pointer
`g` held by the package-level variable.  A panic in one setter ends the call.
`n1`, `n2` are the clock readings available to `SetEpoch`. -/
def New (g : Option Snowflake) (work d epoch n1 n2 : Int) : Except String Snowflake :=
  match SetWorkerAt g work with
  | Except.error e => Except.error e
  | Except.ok s1 =>
    match SetDatacenterAt (some s1) d with
    | Except.error e => Except.error e
    | Except.ok s2 => SetEpochAt (some s2) epoch n1 n2

/-- Embedding of `init` (lines 92-94), run once at process start on the
package-level variable. -/
def init (n1 n2 : Int) : Except String Snowflake :=
  New snowflake 4 6 1687752676742 n1 n2

/-- Embedding of `ID` (lines 96-99) through the pointer `g`: the identifier of
`CreateID` with the error discarded.  `CreateID` locks the embedded mutex first,
which panics on a nil receiver; `Except.ok none` means the call does not
return. -/
def ID (g : Option Snowflake) (now : Int) (later : List Int) : Except String (Option Int) :=
  match g with
  | none => Except.error nilDereference
  | some s => Except.ok ((CreateID s now later).map (fun r => r.id))

/-! ## Histories of calls on one generator -/

/-- One call on the generator, with the clock readings it is given. -/
inductive Op where
  | setWorker (w : Int)
  | setDatacenter (d : Int)
  | setEpoch (e n1 n2 : Int)
  | createID (now : Int) (later : List Int)

/-- The state one call leaves; `none` means that the call does not return. -/
def step (s : Snowflake) : Op → Option Snowflake
  | Op.setWorker w => some (SetWorker s w)
  | Op.setDatacenter d => some (SetDatacenter s d)
  | Op.setEpoch e n1 n2 => some (SetEpoch s e n1 n2)
  | Op.createID now later => (CreateID s now later).map (fun r => r.state)

/-- The state a sequence of calls leaves. -/
def steps : Snowflake → List Op → Option Snowflake
  | s, [] => some s
  | s, op :: ops =>
    match step s op with
    | none => none
    | some s1 => steps s1 ops

/-! ## Values of the constants -/

theorem timestampMax_eq : timestampMax = 2199023255551 := by decide
theorem workerMax_eq : workerMax = 15 := by decide
theorem datacenterMax_eq : datacenterMax = 63 := by decide
theorem seqMax_eq : seqMax = 4095 := by decide
theorem workerShift_eq : workerShift = 12 := by decide
theorem datacenterShift_eq : datacenterShift = 16 := by decide
theorem timestampShift_eq : timestampShift = 22 := by decide

/-! ## Machine arithmetic on values that fit -/

theorem wrap64_of_fits (x : Int) (h1 : -9223372036854775808 ≤ x)
    (h2 : x < 9223372036854775808) : wrap64 x = x := by
  unfold wrap64
  omega

theorem wrap64_range (x : Int) :
    -9223372036854775808 ≤ wrap64 x ∧ wrap64 x < 9223372036854775808 := by
  unfold wrap64
  omega

theorem toBits_natCast (n : Nat) (h : n < 18446744073709551616) : toBits (n : Int) = n := by
  unfold toBits
  omega

theorem ofBits_of_fits (n : Nat) (h : n < 9223372036854775808) : ofBits n = (n : Int) := by
  unfold ofBits
  exact wrap64_of_fits _ (by omega) (by omega)

theorem toBits_cast (x : Int) : ((toBits x : Nat) : Int) = x % 18446744073709551616 := by
  unfold toBits
  omega

/-- Masking with `2^k - 1` keeps the residue modulo `2^k`, whatever the sign of `x`. -/
theorem and64_mask (x : Int) (k : Nat) (m : Nat) (hk : k ≤ 63) (hm : m = 2 ^ k - 1) :
    and64 x (m : Int) = x % ((2 ^ k : Nat) : Int) := by
  have hpos : 0 < 2 ^ k := Nat.pow_pos (by decide)
  have hle : 2 ^ k ≤ 2 ^ 63 := Nat.pow_le_pow_right (by decide) hk
  have h63 : (2 : Nat) ^ 63 = 9223372036854775808 := by norm_num
  have hmlt : m < 18446744073709551616 := by omega
  unfold and64
  rw [toBits_natCast m hmlt, hm, Nat.and_pow_two_sub_one_eq_mod]
  have hlt : toBits x % 2 ^ k < 2 ^ k := Nat.mod_lt _ hpos
  rw [ofBits_of_fits _ (by omega), Int.natCast_mod, toBits_cast]
  have hdvd : ((2 ^ k : Nat) : Int) ∣ 18446744073709551616 := by
    have : (18446744073709551616 : Int) = ((2 ^ 64 : Nat) : Int) := by norm_num
    rw [this]
    exact Int.natCast_dvd_natCast.mpr (Nat.pow_dvd_pow 2 (by omega))
  exact Int.emod_emod_of_dvd x hdvd

theorem and64_4095 (x : Int) : and64 x 4095 = x % 4096 := by
  have h := and64_mask x 12 4095 (by decide) (by norm_num)
  simpa using h

theorem and64_63 (x : Int) : and64 x 63 = x % 64 := by
  have h := and64_mask x 6 63 (by decide) (by norm_num)
  simpa using h

theorem and64_15 (x : Int) : and64 x 15 = x % 16 := by
  have h := and64_mask x 4 15 (by decide) (by norm_num)
  simpa using h

/-- A bitwise or of a multiple of `2^k` with a value below `2^k` is their sum. -/
theorem or64_disjoint (k a b : Nat) (hb : b < 2 ^ k)
    (hfit : 2 ^ k * a + b < 9223372036854775808) :
    or64 ((2 ^ k * a : Nat) : Int) (b : Int) = ((2 ^ k * a + b : Nat) : Int) := by
  unfold or64
  rw [toBits_natCast _ (by omega), toBits_natCast _ (by omega),
    ← Nat.mul_add_lt_is_or hb a, ofBits_of_fits _ hfit]

theorem or64_add (k a b : Nat) (x y : Int) (hx : x = ((2 ^ k * a : Nat) : Int))
    (hy : y = (b : Int)) (hb : b < 2 ^ k) (hfit : 2 ^ k * a + b < 9223372036854775808) :
    or64 x y = x + y := by
  subst hx hy
  rw [or64_disjoint k a b hb hfit]
  push_cast
  rfl

theorem shl64_of_fits (a : Int) (k : Nat) (h1 : -9223372036854775808 ≤ a * 2 ^ k)
    (h2 : a * 2 ^ k < 9223372036854775808) : shl64 a k = a * 2 ^ k := by
  unfold shl64
  exact wrap64_of_fits _ h1 h2

/-- On in-range fields the packing of line 81 is the positional sum of the fields. -/
theorem pack_eq_sum (t d w q : Int) (ht0 : 0 ≤ t) (ht1 : t ≤ 2199023255551)
    (hd0 : 0 ≤ d) (hd1 : d ≤ 63) (hw0 : 0 ≤ w) (hw1 : w ≤ 15)
    (hq0 : 0 ≤ q) (hq1 : q ≤ 4095) :
    pack t d w q = t * 4194304 + d * 65536 + w * 4096 + q := by
  obtain ⟨tn, rfl⟩ := Int.eq_ofNat_of_zero_le ht0
  obtain ⟨dn, rfl⟩ := Int.eq_ofNat_of_zero_le hd0
  obtain ⟨wn, rfl⟩ := Int.eq_ofNat_of_zero_le hw0
  obtain ⟨qn, rfl⟩ := Int.eq_ofNat_of_zero_le hq0
  unfold pack
  rw [timestampShift_eq, datacenterShift_eq, workerShift_eq]
  rw [shl64_of_fits _ 22 (by omega) (by omega), shl64_of_fits _ 16 (by omega) (by omega),
    shl64_of_fits _ 12 (by omega) (by omega)]
  have h1 : or64 ((tn : Int) * 2 ^ 22) ((dn : Int) * 2 ^ 16)
      = (tn : Int) * 2 ^ 22 + (dn : Int) * 2 ^ 16 :=
    or64_add 22 tn (65536 * dn) _ _ (by omega) (by omega) (by omega) (by omega)
  have h2 : or64 ((tn : Int) * 2 ^ 22 + (dn : Int) * 2 ^ 16) ((wn : Int) * 2 ^ 12)
      = (tn : Int) * 2 ^ 22 + (dn : Int) * 2 ^ 16 + (wn : Int) * 2 ^ 12 :=
    or64_add 16 (64 * tn + dn) (4096 * wn) _ _ (by omega) (by omega) (by omega) (by omega)
  have h3 : or64 ((tn : Int) * 2 ^ 22 + (dn : Int) * 2 ^ 16 + (wn : Int) * 2 ^ 12) (qn : Int)
      = (tn : Int) * 2 ^ 22 + (dn : Int) * 2 ^ 16 + (wn : Int) * 2 ^ 12 + (qn : Int) :=
    or64_add 12 (1024 * tn + 16 * dn + wn) qn _ _ (by omega) (by omega) (by omega) (by omega)
  rw [h1, h2, h3]
  omega

/-! ## The `CreateID` step -/

/-- The loop of lines 68-70 is entered with `now = s.timestamp`: its condition
`now < s.timestamp` is false at once and no reading is taken. -/
theorem spinWait_self (ts : Int) (later : List Int) : spinWait ts ts later = some (ts, later) := by
  cases later <;> simp [spinWait]

/-- The `CreateID` call always returns, after exactly one clock reading. -/
theorem CreateID_eq_finish (s : Snowflake) (now : Int) (later : List Int) :
    CreateID s now later = some (finish { s with seq := nextSeq s now } now later) := by
  unfold CreateID nextSeq
  by_cases h : now = s.timestamp
  · subst h
    simp only [if_true, spinWait_self]
    split <;> rfl
  · simp [h]

theorem nextSeq_eq (s : Snowflake) (now : Int) :
    nextSeq s now = if now = s.timestamp then (s.seq + 1) % 4096 else 0 := by
  unfold nextSeq
  split
  · rw [seqMax_eq, and64_4095]
    unfold add64 wrap64
    omega
  · rfl

theorem nextSeq_range (s : Snowflake) (now : Int) : 0 ≤ nextSeq s now ∧ nextSeq s now ≤ 4095 := by
  rw [nextSeq_eq]
  split <;> omega

theorem sub64_of_fits (a b : Int) (h1 : -9223372036854775808 ≤ a - b)
    (h2 : a - b < 9223372036854775808) : sub64 a b = a - b := by
  unfold sub64
  exact wrap64_of_fits _ h1 h2

/-! ## Sequence exhaustion -/

/-- C2 (evaluation of the code): a call that finds `sequence = 4095` and reads
`now = lastTimestamp` wraps the sequence to 0 and returns at once.  It takes no
further clock reading (`rest = later`), keeps `lastTimestamp` at the same
millisecond, and on success returns the identifier of the slot
`(lastTimestamp, 0)`: the timestamp it carries is not greater than the previous
`lastTimestamp`. -/
theorem CreateID_exhausted_no_wait (epoch T worker datacenter : Int) (later : List Int) :
    ∃ r, CreateID ⟨epoch, T, worker, datacenter, 4095⟩ T later = some r ∧
      r.rest = later ∧ r.state.seq = 0 ∧ r.state.timestamp = T ∧
      (sub64 T epoch > timestampMax ∨
        (r.err = none ∧ r.id = pack (sub64 T epoch) datacenter worker 0)) := by
  refine ⟨_, CreateID_eq_finish _ _ _, ?_⟩
  have hs : nextSeq ⟨epoch, T, worker, datacenter, 4095⟩ T = 0 := by
    rw [nextSeq_eq]
    simp
  rw [hs]
  unfold finish
  by_cases h : sub64 T epoch > timestampMax
  · simp [h]
  · simp [h]

/-! ## Bit round-trip -/

/-- C3: for in-range fields, shifting and masking the packed identifier gives
back the elapsed time, the datacenter, the worker and the sequence number. -/
theorem pack_roundtrip (elapsed datacenter worker seq : Int)
    (he0 : 0 ≤ elapsed) (he1 : elapsed ≤ 2 ^ 41 - 1)
    (hd0 : 0 ≤ datacenter) (hd1 : datacenter ≤ 63)
    (hw0 : 0 ≤ worker) (hw1 : worker ≤ 15)
    (hq0 : 0 ≤ seq) (hq1 : seq ≤ 4095) :
    shr64 (pack elapsed datacenter worker seq) 22 = elapsed ∧
    and64 (shr64 (pack elapsed datacenter worker seq) 16) 63 = datacenter ∧
    and64 (shr64 (pack elapsed datacenter worker seq) 12) 15 = worker ∧
    and64 (pack elapsed datacenter worker seq) 4095 = seq := by
  rw [pack_eq_sum elapsed datacenter worker seq he0 (by omega) hd0 hd1 hw0 hw1 hq0 hq1]
  rw [and64_63, and64_15, and64_4095]
  unfold shr64
  refine ⟨?_, ?_, ?_, ?_⟩ <;> omega

theorem pack_roundtrip_witness :
    shr64 (pack 12247323258 6 4 7) 22 = 12247323258 ∧
    and64 (shr64 (pack 12247323258 6 4 7) 16) 63 = 6 ∧
    and64 (shr64 (pack 12247323258 6 4 7) 12) 15 = 4 ∧
    and64 (pack 12247323258 6 4 7) 4095 = 7 :=
  pack_roundtrip 12247323258 6 4 7 (by decide) (by decide) (by decide) (by decide)
    (by decide) (by decide) (by decide) (by decide)

/-! ## Epoch overflow -/

/-- C4: every `CreateID` call returns; it returns the error, together with the
value `-1`, exactly when the elapsed time `now - epoch` computed on line 76
exceeds `2^41 - 1`, and otherwise it returns the packed identifier with a nil
error.  The elapsed time is the `int64` difference; it is the exact difference
whenever that fits into 64 bits. -/
theorem CreateID_error_iff (s : Snowflake) (now : Int) (later : List Int) :
    ∃ r, CreateID s now later = some r ∧
      (r.err ≠ none ↔ sub64 now s.epoch > 2 ^ 41 - 1) ∧
      (r.err ≠ none → r.id = -1) ∧
      (r.err = none → r.id = pack (sub64 now s.epoch) s.datacenter s.worker r.state.seq) ∧
      (-2 ^ 63 ≤ now - s.epoch → now - s.epoch < 2 ^ 63 →
        (r.err ≠ none ↔ now - s.epoch > 2 ^ 41 - 1)) := by
  refine ⟨_, CreateID_eq_finish _ _ _, ?_⟩
  have hmax : timestampMax = 2 ^ 41 - 1 := by rw [timestampMax_eq]; norm_num
  have hiff : (finish { s with seq := nextSeq s now } now later).err ≠ none ↔
      sub64 now s.epoch > 2 ^ 41 - 1 := by
    unfold finish
    by_cases h : sub64 now s.epoch > timestampMax
    · simp only [h, if_true]
      rw [hmax] at h
      exact ⟨fun _ => h, fun _ => by simp⟩
    · simp only [h, if_false]
      rw [hmax] at h
      exact ⟨fun hn => absurd rfl hn, fun hn => absurd hn h⟩
  refine ⟨hiff, ?_, ?_, ?_⟩
  · intro h
    have h1 := hiff.mp h
    unfold finish
    rw [← hmax] at h1
    simp [h1]
  · intro h
    unfold finish
    by_cases h1 : sub64 now s.epoch > timestampMax
    · exfalso
      unfold finish at h
      simp [h1] at h
    · simp [h1]
  · intro h1 h2
    rw [hiff, sub64_of_fits now s.epoch (by omega) (by omega)]

/-! ## State after an overflow error -/

/-- C5 (counterexample): with epoch 0 and six identifiers already produced in the
millisecond `2^41 - 1` (sequence 5), the call at the next millisecond returns
the overflow error and leaves sequence 0, not 5. -/
theorem CreateID_error_changes_seq :
    ∃ r, CreateID ⟨0, 2199023255551, 4, 6, 5⟩ 2199023255552 [] = some r ∧
      r.err ≠ none ∧ r.state.seq = 0 ∧ r.state.seq ≠ (5 : Int) := by
  refine ⟨_, CreateID_eq_finish _ _ _, ?_⟩
  decide

/-- C5 (amended): when the elapsed time of line 76 exceeds `2^41 - 1`, `CreateID`
returns the overflow error with `lastTimestamp` (and epoch, worker,
datacenter) at its value from before the call, and with the sequence already
updated as in any call: `(sequence + 1) mod 4096` when the reading equals
`lastTimestamp`, and 0 otherwise. -/
theorem CreateID_error_state (s : Snowflake) (now : Int) (later : List Int)
    (hover : sub64 now s.epoch > 2 ^ 41 - 1) :
    ∃ r, CreateID s now later = some r ∧ r.err ≠ none ∧ r.id = -1 ∧
      r.state.timestamp = s.timestamp ∧
      r.state.seq = (if now = s.timestamp then (s.seq + 1) % 4096 else 0) ∧
      r.state.epoch = s.epoch ∧ r.state.worker = s.worker ∧
      r.state.datacenter = s.datacenter := by
  refine ⟨_, CreateID_eq_finish _ _ _, ?_⟩
  have h1 : sub64 now s.epoch > timestampMax := by
    rw [timestampMax_eq]
    omega
  unfold finish
  rw [if_pos h1]
  exact ⟨by simp, rfl, rfl, nextSeq_eq s now, rfl, rfl, rfl⟩

theorem CreateID_error_state_witness :
    sub64 2199023255552 (0 : Int) > 2 ^ 41 - 1 ∧
    ∃ r, CreateID ⟨0, 2199023255552 - 1, 15, 63, 7⟩ 2199023255552 [] = some r ∧
      r.err ≠ none ∧ r.id = -1 ∧
      r.state.timestamp = 2199023255552 - 1 ∧
      r.state.seq = (if (2199023255552 : Int) = 2199023255552 - 1 then (7 + 1) % 4096 else 0) ∧
      r.state.epoch = 0 ∧ r.state.worker = 15 ∧ r.state.datacenter = 63 :=
  ⟨by decide, CreateID_error_state ⟨0, 2199023255552 - 1, 15, 63, 7⟩ 2199023255552 []
    (by decide)⟩

/-! ## Ordering across milliseconds -/

/-- A successful call returns the positional sum of its fields when the elapsed
time, the worker and the datacenter are in range. -/
theorem finish_id_of_fits (s : Snowflake) (now : Int) (rest : List Int)
    (hw0 : 0 ≤ s.worker) (hw1 : s.worker ≤ 15) (hd0 : 0 ≤ s.datacenter) (hd1 : s.datacenter ≤ 63)
    (hq0 : 0 ≤ s.seq) (hq1 : s.seq ≤ 4095)
    (h0 : 0 ≤ now - s.epoch) (h1 : now - s.epoch ≤ 2199023255551) :
    (finish s now rest).err = none ∧
    (finish s now rest).id
      = (now - s.epoch) * 4194304 + s.datacenter * 65536 + s.worker * 4096 + s.seq := by
  have ht : sub64 now s.epoch = now - s.epoch := sub64_of_fits _ _ (by omega) (by omega)
  have hn : ¬ sub64 now s.epoch > timestampMax := by
    rw [ht, timestampMax_eq]
    omega
  unfold finish
  simp only [hn, if_false, true_and]
  rw [ht]
  exact pack_eq_sum _ _ _ _ h0 h1 hd0 hd1 hw0 hw1 hq0 hq1

/-- C7: with worker in `[0,15]`, datacenter in `[0,63]` and a fixed epoch, two
calls whose readings satisfy `epoch ≤ now1 < now2` and whose elapsed time fits
41 bits both succeed, and the identifier of the later reading is strictly
greater, whatever the timestamps and sequence numbers stored before the calls. -/
theorem CreateID_ordered_across_ms (epoch worker datacenter : Int)
    (ts1 seq1 ts2 seq2 now1 now2 : Int) (later1 later2 : List Int)
    (hw0 : 0 ≤ worker) (hw1 : worker ≤ 15) (hd0 : 0 ≤ datacenter) (hd1 : datacenter ≤ 63)
    (h12 : now1 < now2) (he : epoch ≤ now1) (hfit : now2 - epoch ≤ 2 ^ 41 - 1) :
    ∃ r1 r2, CreateID ⟨epoch, ts1, worker, datacenter, seq1⟩ now1 later1 = some r1 ∧
      CreateID ⟨epoch, ts2, worker, datacenter, seq2⟩ now2 later2 = some r2 ∧
      r1.err = none ∧ r2.err = none ∧ r1.id < r2.id := by
  refine ⟨_, _, CreateID_eq_finish _ _ _, CreateID_eq_finish _ _ _, ?_⟩
  have hq1 := nextSeq_range ⟨epoch, ts1, worker, datacenter, seq1⟩ now1
  have hq2 := nextSeq_range ⟨epoch, ts2, worker, datacenter, seq2⟩ now2
  have hfit2 : now2 - epoch ≤ 2199023255551 := by omega
  obtain ⟨e1, i1⟩ := finish_id_of_fits
    { (⟨epoch, ts1, worker, datacenter, seq1⟩ : Snowflake) with
      seq := nextSeq ⟨epoch, ts1, worker, datacenter, seq1⟩ now1 } now1 later1
    hw0 hw1 hd0 hd1 hq1.1 hq1.2 (by simp only; omega) (by simp only; omega)
  obtain ⟨e2, i2⟩ := finish_id_of_fits
    { (⟨epoch, ts2, worker, datacenter, seq2⟩ : Snowflake) with
      seq := nextSeq ⟨epoch, ts2, worker, datacenter, seq2⟩ now2 } now2 later2
    hw0 hw1 hd0 hd1 hq2.1 hq2.2 (by simp only; omega) (by simp only; omega)
  refine ⟨e1, e2, ?_⟩
  rw [i1, i2]
  simp only
  omega

theorem CreateID_ordered_across_ms_witness :
    ∃ r1 r2, CreateID ⟨1687752676742, 0, 4, 6, 0⟩ 1700000000000 [] = some r1 ∧
      CreateID ⟨1687752676742, 1700000000000, 4, 6, 4095⟩ 1700000000001 [] = some r2 ∧
      r1.err = none ∧ r2.err = none ∧ r1.id < r2.id :=
  CreateID_ordered_across_ms 1687752676742 4 6 0 0 1700000000000 4095
    1700000000000 1700000000001 [] []
    (by decide) (by decide) (by decide) (by decide) (by decide) (by decide) (by decide)

/-! ## Configuration setters -/

/-- C8: `SetWorker w` leaves worker 0 when `w > 15` and worker `w` otherwise, and
does not touch epoch, datacenter, lastTimestamp or sequence; `SetWorker 20`
gives worker 0. -/
theorem SetWorker_spec (s : Snowflake) (w : Int) :
    (SetWorker s w).worker = (if w > 15 then 0 else w) ∧
    (SetWorker s w).epoch = s.epoch ∧
    (SetWorker s w).datacenter = s.datacenter ∧
    (SetWorker s w).timestamp = s.timestamp ∧
    (SetWorker s w).seq = s.seq ∧
    (SetWorker s 20).worker = 0 := by
  unfold SetWorker
  rw [workerMax_eq]
  refine ⟨?_, ?_, ?_, ?_, ?_, ?_⟩ <;> split <;> first | rfl | omega

/-- C9: `SetDatacenter d` with `d > 63` sets the worker field to 0 and keeps the
datacenter field; with `d ≤ 63` it sets datacenter to `d` and keeps the worker
field; epoch, lastTimestamp and sequence are untouched in both cases, and
`SetDatacenter 100` after `SetWorker 5` leaves worker 0. -/
theorem SetDatacenter_spec (s : Snowflake) (d : Int) :
    (SetDatacenter s d).worker = (if d > 63 then 0 else s.worker) ∧
    (SetDatacenter s d).datacenter = (if d > 63 then s.datacenter else d) ∧
    (SetDatacenter s d).epoch = s.epoch ∧
    (SetDatacenter s d).timestamp = s.timestamp ∧
    (SetDatacenter s d).seq = s.seq ∧
    (SetDatacenter (SetWorker s 5) 100).worker = 0 ∧
    (SetDatacenter (SetWorker s 5) 100).datacenter = s.datacenter := by
  unfold SetDatacenter SetWorker
  rw [datacenterMax_eq, workerMax_eq]
  refine ⟨?_, ?_, ?_, ?_, ?_, ?_, ?_⟩ <;> split <;> first | rfl | omega

/-- C10: with non-negative clock readings `n1 ≤ n2`, `SetEpoch e` sets epoch to
`e` when `0 ≤ e ≤ n1` and to `n2` otherwise, so that `0 ≤ epoch ≤ n2`
afterwards; worker, datacenter, lastTimestamp and sequence are untouched. -/
theorem SetEpoch_spec (s : Snowflake) (e n1 n2 : Int) (h0 : 0 ≤ n1) (h12 : n1 ≤ n2) :
    (SetEpoch s e n1 n2).epoch = (if 0 ≤ e ∧ e ≤ n1 then e else n2) ∧
    0 ≤ (SetEpoch s e n1 n2).epoch ∧ (SetEpoch s e n1 n2).epoch ≤ n2 ∧
    (SetEpoch s e n1 n2).worker = s.worker ∧
    (SetEpoch s e n1 n2).datacenter = s.datacenter ∧
    (SetEpoch s e n1 n2).timestamp = s.timestamp ∧
    (SetEpoch s e n1 n2).seq = s.seq := by
  by_cases h : e > n1 ∨ e < 0
  · have hs : SetEpoch s e n1 n2 = { s with epoch := n2 } := by
      unfold SetEpoch
      rw [if_pos (by simpa using h)]
    have hc : ¬ (0 ≤ e ∧ e ≤ n1) := by omega
    rw [hs, if_neg hc]
    exact ⟨rfl, by show 0 ≤ n2; omega, by show n2 ≤ n2; omega, rfl, rfl, rfl, rfl⟩
  · have hs : SetEpoch s e n1 n2 = { s with epoch := e } := by
      unfold SetEpoch
      rw [if_neg (by simpa using h)]
    have hc : 0 ≤ e ∧ e ≤ n1 := by omega
    rw [hs, if_pos hc]
    exact ⟨rfl, by show 0 ≤ e; omega, by show e ≤ n2; omega, rfl, rfl, rfl, rfl⟩

theorem SetEpoch_spec_witness :
    (SetEpoch zero 1687752676742 1700000000000 1700000000001).epoch
      = (if (0 : Int) ≤ 1687752676742 ∧ (1687752676742 : Int) ≤ 1700000000000
          then 1687752676742 else 1700000000001) ∧
    0 ≤ (SetEpoch zero 1687752676742 1700000000000 1700000000001).epoch ∧
    (SetEpoch zero 1687752676742 1700000000000 1700000000001).epoch ≤ 1700000000001 ∧
    (SetEpoch zero 1687752676742 1700000000000 1700000000001).worker = zero.worker ∧
    (SetEpoch zero 1687752676742 1700000000000 1700000000001).datacenter = zero.datacenter ∧
    (SetEpoch zero 1687752676742 1700000000000 1700000000001).timestamp = zero.timestamp ∧
    (SetEpoch zero 1687752676742 1700000000000 1700000000001).seq = zero.seq :=
  SetEpoch_spec zero 1687752676742 1700000000000 1700000000001 (by decide) (by decide)

/-! ## Calls within one millisecond -/

/-- A call that reads `now = lastTimestamp` while `sequence < 4095` and the
elapsed time fits: it succeeds and steps the sequence by one. -/
theorem CreateID_same_ms (s : Snowflake) (later : List Int) (h0 : 0 ≤ s.seq)
    (h1 : s.seq < 4095) (hfit : ¬ sub64 s.timestamp s.epoch > timestampMax) :
    CreateID s s.timestamp later = some
      { state := { s with seq := s.seq + 1 },
        id := pack (sub64 s.timestamp s.epoch) s.datacenter s.worker (s.seq + 1),
        err := none,
        rest := later } := by
  have hs : nextSeq s s.timestamp = s.seq + 1 := by
    rw [nextSeq_eq, if_pos rfl]
    omega
  rw [CreateID_eq_finish, hs]
  unfold finish
  simp only [hfit, if_false]

/-- The outputs of `n` calls that all read `lastTimestamp`, starting below the
end of the sequence range: `n` results, after which the run goes on from the
state with the sequence advanced by `n`. -/
theorem run_same_ms (n : Nat) : ∀ (s : Snowflake), 0 ≤ s.seq → s.seq + n ≤ 4095 →
    ¬ sub64 s.timestamp s.epoch > timestampMax →
    ∃ mid : List (Int × Option String), mid.length = n ∧
      ∀ (m : Nat) (tail : List Int),
        run (n + m) s (List.replicate n s.timestamp ++ tail)
          = (run m { s with seq := s.seq + n } tail).map (fun out => mid ++ out) := by
  induction n with
  | zero =>
    intro s _ _ _
    refine ⟨[], rfl, ?_⟩
    intro m tail
    have hs : ({ s with seq := s.seq + ((0 : Nat) : Int) } : Snowflake) = s := by
      cases s
      simp
    rw [hs]
    simp
  | succ n ih =>
    intro s h0 h1 hfit
    have hlt : s.seq < 4095 := by omega
    obtain ⟨mid, hlen, hmid⟩ := ih { s with seq := s.seq + 1 } (by show 0 ≤ s.seq + 1; omega)
      (by show s.seq + 1 + (n : Int) ≤ 4095; omega) hfit
    refine ⟨(pack (sub64 s.timestamp s.epoch) s.datacenter s.worker (s.seq + 1), none) :: mid,
      by simp [hlen], ?_⟩
    intro m tail
    have hs : ({ s with seq := s.seq + ((n + 1 : Nat) : Int) } : Snowflake)
        = { ({ s with seq := s.seq + 1 } : Snowflake) with seq := s.seq + 1 + (n : Int) } := by
      simp only [Snowflake.mk.injEq, true_and]
      omega
    have hm := hmid m tail
    simp only at hm
    rw [show n + 1 + m = (n + m) + 1 by omega, List.replicate_succ, List.cons_append]
    simp only [run]
    rw [CreateID_same_ms s _ h0 hlt hfit]
    simp only
    rw [hm, hs]
    cases run m { ({ s with seq := s.seq + 1 } : Snowflake) with seq := s.seq + 1 + (n : Int) } tail
      <;> simp

/-- C1 (evaluation of the code): a zero-valued generator configured with
worker 4, datacenter 6 and epoch 1687752676742 is called 4097 times while the
clock reads the same millisecond (a non-decreasing clock).  All calls succeed,
and the last call returns the identifier that the first call returned. -/
theorem CreateID_duplicate_in_one_ms :
    ∃ (id : Int) (mid : List (Int × Option String)), mid.length = 4095 ∧
      run 4097
        (SetEpoch (SetDatacenter (SetWorker zero 4) 6) 1687752676742 1700000000000 1700000000000)
        (List.replicate 4097 1700000000000)
        = some ((id, none) :: (mid ++ [(id, none)])) := by
  have hnew :
      SetEpoch (SetDatacenter (SetWorker zero 4) 6) 1687752676742 1700000000000 1700000000000
        = ⟨1687752676742, 0, 4, 6, 0⟩ := by decide
  have hfit : ¬ sub64 (1700000000000 : Int) 1687752676742 > timestampMax := by decide
  obtain ⟨mid, hlen, hmid⟩ := run_same_ms 4095 ⟨1687752676742, 1700000000000, 4, 6, 0⟩
    (by decide) (by decide) hfit
  have hm := hmid 1 [1700000000000]
  simp only at hm
  have hfirst : CreateID ⟨1687752676742, 0, 4, 6, 0⟩ 1700000000000
      (List.replicate 4095 1700000000000 ++ [1700000000000])
      = some { state := ⟨1687752676742, 1700000000000, 4, 6, 0⟩,
               id := 51368996930732032, err := none,
               rest := List.replicate 4095 1700000000000 ++ [1700000000000] } := by
    rw [CreateID_eq_finish]
    have hq : nextSeq ⟨1687752676742, 0, 4, 6, 0⟩ 1700000000000 = 0 := by decide
    rw [hq]
    have hf : ∀ rest : List Int, finish ⟨1687752676742, 0, 4, 6, 0⟩ 1700000000000 rest
        = { state := ⟨1687752676742, 1700000000000, 4, 6, 0⟩,
            id := 51368996930732032, err := none, rest := rest } := by
      intro rest
      have hp : pack (sub64 1700000000000 1687752676742) 6 4 0 = 51368996930732032 := by decide
      unfold finish
      simp only [hfit, if_false, hp]
    exact congrArg some (hf _)
  have hlast : run 1 ⟨1687752676742, 1700000000000, 4, 6, 4095⟩ [1700000000000]
      = some [(51368996930732032, none)] := by decide
  refine ⟨51368996930732032, mid, hlen, ?_⟩
  rw [hnew, show (4097 : Nat) = 4096 + 1 from rfl, List.replicate_succ,
    show (4096 : Nat) = 4095 + 1 from rfl, List.replicate_succ']
  simp only [run]
  rw [hfirst]
  simp only
  have hseq : ({ (⟨1687752676742, 1700000000000, 4, 6, 0⟩ : Snowflake) with
      seq := (0 : Int) + ((4095 : Nat) : Int) } : Snowflake)
      = ⟨1687752676742, 1700000000000, 4, 6, 4095⟩ := by decide
  rw [hseq, hlast] at hm
  rw [hm]
  rfl

/-- C6 (evaluation of the code): two consecutive successful calls that read the
same millisecond, the first of which takes sequence 4095.  The second takes
sequence 0 and its identifier is smaller; the low 12 bits of the two
identifiers are 4095 and 0. -/
theorem CreateID_same_ms_wrap :
    run 2 ⟨1687752676742, 1700000000000, 4, 6, 4094⟩ [1700000000000, 1700000000000]
      = some [(51368996930736127, none), (51368996930732032, none)] ∧
    (51368996930732032 : Int) < 51368996930736127 ∧
    and64 51368996930736127 4095 = 4095 ∧ and64 51368996930732032 4095 = 0 := by
  decide

/-! ## Frame lemmas -/

theorem finish_frame (s : Snowflake) (now : Int) (rest : List Int) :
    (finish s now rest).state.seq = s.seq ∧ (finish s now rest).state.epoch = s.epoch ∧
    (finish s now rest).state.worker = s.worker ∧
    (finish s now rest).state.datacenter = s.datacenter := by
  unfold finish
  by_cases h : sub64 now s.epoch > timestampMax
  · simp only [if_pos h]
    exact ⟨trivial, trivial, trivial, trivial⟩
  · simp only [if_neg h]
    exact ⟨trivial, trivial, trivial, trivial⟩

theorem SetWorker_frame (s : Snowflake) (w : Int) :
    (SetWorker s w).seq = s.seq ∧ (SetWorker s w).datacenter = s.datacenter := by
  unfold SetWorker
  split <;> exact ⟨rfl, rfl⟩

theorem SetDatacenter_frame (s : Snowflake) (d : Int) : (SetDatacenter s d).seq = s.seq := by
  unfold SetDatacenter
  split <;> rfl

theorem SetEpoch_frame (s : Snowflake) (e n1 n2 : Int) :
    (SetEpoch s e n1 n2).seq = s.seq ∧ (SetEpoch s e n1 n2).worker = s.worker ∧
    (SetEpoch s e n1 n2).datacenter = s.datacenter := by
  unfold SetEpoch
  split <;> exact ⟨rfl, rfl, rfl⟩

/-- Every call returns and leaves a sequence number in `[0, 4095]`. -/
theorem CreateID_seq_range (s : Snowflake) (now : Int) (later : List Int) :
    ∃ r, CreateID s now later = some r ∧ 0 ≤ r.state.seq ∧ r.state.seq ≤ 4095 := by
  refine ⟨_, CreateID_eq_finish _ _ _, ?_⟩
  rw [(finish_frame _ now later).1]
  exact nextSeq_range s now

theorem step_seq_range (s : Snowflake) (op : Op) (h0 : 0 ≤ s.seq) (h1 : s.seq ≤ 4095) :
    ∃ s1, step s op = some s1 ∧ 0 ≤ s1.seq ∧ s1.seq ≤ 4095 := by
  cases op with
  | setWorker w => exact ⟨_, rfl, by rw [(SetWorker_frame s w).1]; exact ⟨h0, h1⟩⟩
  | setDatacenter d => exact ⟨_, rfl, by rw [SetDatacenter_frame s d]; exact ⟨h0, h1⟩⟩
  | setEpoch e n1 n2 => exact ⟨_, rfl, by rw [(SetEpoch_frame s e n1 n2).1]; exact ⟨h0, h1⟩⟩
  | createID now later =>
    obtain ⟨r, hr, hq⟩ := CreateID_seq_range s now later
    exact ⟨r.state, by simp [step, hr], hq⟩

theorem steps_seq_range (ops : List Op) : ∀ (s : Snowflake), 0 ≤ s.seq → s.seq ≤ 4095 →
    ∃ s1, steps s ops = some s1 ∧ 0 ≤ s1.seq ∧ s1.seq ≤ 4095 := by
  induction ops with
  | nil =>
    intro s h0 h1
    exact ⟨s, rfl, h0, h1⟩
  | cons op ops ih =>
    intro s h0 h1
    obtain ⟨s1, hs1, h10, h11⟩ := step_seq_range s op h0 h1
    obtain ⟨s2, hs2, h2⟩ := ih s1 h10 h11
    exact ⟨s2, by simp [steps, hs1, hs2], h2⟩

/-! ## Configuration through `New` and `init` -/

theorem New_some (s : Snowflake) (w d e n1 n2 : Int) :
    New (some s) w d e n1 n2 = Except.ok (SetEpoch (SetDatacenter (SetWorker s w) d) e n1 n2) :=
  rfl

/-- The worker and datacenter fields after `SetWorker w` and `SetDatacenter d` on
the zero value. -/
theorem configured_fields (w d : Int) :
    (SetDatacenter (SetWorker zero w) d).worker
      = (if d > 63 then 0 else if w > 15 then 0 else w) ∧
    (SetDatacenter (SetWorker zero w) d).datacenter = (if d > 63 then 0 else d) := by
  unfold SetDatacenter SetWorker
  rw [workerMax_eq, datacenterMax_eq]
  by_cases hw : w > 15 <;> by_cases hd : d > 63 <;> simp [hw, hd, zero]

/-- C11 (evaluation of the code): `New w d e` on a zero-valued generator always
leaves worker at most 15 and datacenter at most 63, and keeps them
non-negative when `w` and `d` are; but `New (-1) (-1) e` leaves worker `-1` and
datacenter `-1`, and the identifier then packed from these fields is
`-4096 + sequence` whatever the timestamp. -/
theorem New_negative_fields :
    (∀ w d e n1 n2 : Int, ∃ s, New (some zero) w d e n1 n2 = Except.ok s ∧
      s.worker ≤ 15 ∧ s.datacenter ≤ 63 ∧
      (0 ≤ w → 0 ≤ s.worker) ∧ (0 ≤ d → 0 ≤ s.datacenter)) ∧
    (∀ e n1 n2 : Int, ∃ s, New (some zero) (-1) (-1) e n1 n2 = Except.ok s ∧
      s.worker = -1 ∧ s.datacenter = -1) ∧
    (CreateID ⟨1687752676742, 0, -1, -1, 0⟩ 1700000000000 []).map (fun r => (r.id, r.err))
      = some (-4096, none) := by
  refine ⟨?_, ?_, by decide⟩
  · intro w d e n1 n2
    refine ⟨_, New_some zero w d e n1 n2, ?_⟩
    rw [(SetEpoch_frame _ e n1 n2).2.1, (SetEpoch_frame _ e n1 n2).2.2]
    obtain ⟨hwk, hdc⟩ := configured_fields w d
    rw [hwk, hdc]
    refine ⟨?_, ?_, ?_, ?_⟩
    · split_ifs <;> omega
    · split_ifs <;> omega
    · intro h0
      split_ifs <;> omega
    · intro h0
      split_ifs <;> omega
  · intro e n1 n2
    refine ⟨_, New_some zero (-1) (-1) e n1 n2, ?_⟩
    rw [(SetEpoch_frame _ e n1 n2).2.1, (SetEpoch_frame _ e n1 n2).2.2]
    exact ⟨by decide, by decide⟩

/-- C12 (evaluation of the code): the package-level variable is the nil pointer
and `init` panics in `SetWorker` for every clock reading, as does a later call
of `ID`.  On an allocated zero-valued generator the same `New 4 6 1687752676742`
gives worker 4, datacenter 6 and, when the clock is at least 1687752676742,
that epoch. -/
theorem init_panics :
    snowflake = none ∧
    (∀ n1 n2 : Int, init n1 n2 = Except.error nilDereference) ∧
    (∀ (now : Int) (later : List Int), ID snowflake now later = Except.error nilDereference) ∧
    (∀ n1 n2 : Int, 1687752676742 ≤ n1 →
      New (some zero) 4 6 1687752676742 n1 n2 = Except.ok ⟨1687752676742, 0, 4, 6, 0⟩) := by
  refine ⟨rfl, fun _ _ => rfl, fun _ _ => rfl, ?_⟩
  intro n1 n2 h
  rw [New_some]
  have hs : SetDatacenter (SetWorker zero 4) 6 = ⟨0, 0, 4, 6, 0⟩ := by decide
  rw [hs]
  unfold SetEpoch
  rw [if_neg (by simp; omega)]

/-! ## The step function of `CreateID` -/

/-- C14: when the elapsed time `now - epoch` of line 76 is at most `2^41 - 1`, the
call returns after one clock reading with a nil error; the sequence becomes
`(sequence + 1) mod 4096` if `now = lastTimestamp` and 0 otherwise,
`lastTimestamp` becomes `now`, and the identifier is exactly
`((now - epoch) << 22) | (datacenter << 16) | (worker << 12) | sequence`, with the
new sequence.  The elapsed time is the `int64` difference, which is the exact
difference whenever that fits into 64 bits. -/
theorem CreateID_step (s : Snowflake) (now : Int) (later : List Int)
    (hfit : sub64 now s.epoch ≤ 2 ^ 41 - 1) :
    CreateID s now later = some
      { state := { s with
          seq := (if now = s.timestamp then (s.seq + 1) % 4096 else 0),
          timestamp := now },
        id := or64 (or64 (or64 (shl64 (sub64 now s.epoch) 22) (shl64 s.datacenter 16))
          (shl64 s.worker 12)) (if now = s.timestamp then (s.seq + 1) % 4096 else 0),
        err := none,
        rest := later } ∧
    (-2 ^ 63 ≤ now - s.epoch → now - s.epoch < 2 ^ 63 → sub64 now s.epoch = now - s.epoch) := by
  refine ⟨?_, fun h1 h2 => sub64_of_fits _ _ (by omega) (by omega)⟩
  have hn : ¬ sub64 now s.epoch > timestampMax := by
    rw [timestampMax_eq]
    omega
  rw [CreateID_eq_finish, nextSeq_eq]
  unfold finish
  rw [if_neg hn]
  rfl

theorem CreateID_step_witness :
    sub64 1700000000000 (1687752676742 : Int) ≤ 2 ^ 41 - 1 ∧
    (CreateID ⟨1687752676742, 1700000000000, 4, 6, 7⟩ 1700000000000 [1700000000001] = some
      { state := ⟨1687752676742, 1700000000000, 4, 6,
          (if (1700000000000 : Int) = 1700000000000 then (7 + 1) % 4096 else 0)⟩,
        id := or64 (or64 (or64 (shl64 (sub64 1700000000000 1687752676742) 22) (shl64 6 16))
          (shl64 4 12)) (if (1700000000000 : Int) = 1700000000000 then (7 + 1) % 4096 else 0),
        err := none,
        rest := [1700000000001] } ∧
    (-2 ^ 63 ≤ (1700000000000 : Int) - 1687752676742 →
      (1700000000000 : Int) - 1687752676742 < 2 ^ 63 →
      sub64 1700000000000 1687752676742 = 1700000000000 - 1687752676742)) :=
  ⟨by decide, CreateID_step ⟨1687752676742, 1700000000000, 4, 6, 7⟩ 1700000000000
    [1700000000001] (by decide)⟩

/-! ## Clock regression -/

/-- C15: with worker 4, datacenter 6 and epoch 1687752676742, the readings
`T, T + 1, T` (a backward jump before the third call) give three successful
calls; the third returns the identifier of the first, and it is smaller than
the identifier of the second. -/
theorem CreateID_clock_regression :
    run 3 ⟨1687752676742, 0, 4, 6, 0⟩ [1700000000000, 1700000000001, 1700000000000]
      = some [(51368996930732032, none), (51368996934926336, none),
          (51368996930732032, none)] ∧
    (51368996930732032 : Int) < 51368996934926336 := by
  decide

/-! ## Sequence range -/

/-- C16: whatever the state before it, a `CreateID` call returns and leaves the
sequence in `[0, 4095]`, with or without the overflow error; and every sequence
of setter and `CreateID` calls on the zero-valued generator runs to the end
and leaves the sequence in `[0, 4095]`. -/
theorem seq_in_range :
    (∀ (s : Snowflake) (now : Int) (later : List Int),
      ∃ r, CreateID s now later = some r ∧ 0 ≤ r.state.seq ∧ r.state.seq ≤ 4095) ∧
    (∀ ops : List Op, ∃ s, steps zero ops = some s ∧ 0 ≤ s.seq ∧ s.seq ≤ 4095) := by
  refine ⟨CreateID_seq_range, fun ops => ?_⟩
  exact steps_seq_range ops zero (by decide) (by decide)

/-! ## Sign of the identifier -/

/-- C17: with worker in `[0,15]`, datacenter in `[0,63]` and
`0 ≤ now - epoch ≤ 2^41 - 1`, the call succeeds and its identifier satisfies
`0 ≤ id < 2^63`; it differs from the `-1` of the error return, and `ID` returns
this identifier.  The sequence stored before the call may be any value, in
`[0,4095]` or not: the call replaces it by one in `[0,4095]` before packing. -/
theorem CreateID_id_nonneg (s : Snowflake) (now : Int) (later : List Int)
    (hw0 : 0 ≤ s.worker) (hw1 : s.worker ≤ 15)
    (hd0 : 0 ≤ s.datacenter) (hd1 : s.datacenter ≤ 63)
    (h0 : 0 ≤ now - s.epoch) (h1 : now - s.epoch ≤ 2 ^ 41 - 1) :
    ∃ r, CreateID s now later = some r ∧ r.err = none ∧
      0 ≤ r.id ∧ r.id < 2 ^ 63 ∧ r.id ≠ -1 ∧
      ID (some s) now later = Except.ok (some r.id) := by
  have hc := CreateID_eq_finish s now later
  have hq := nextSeq_range s now
  obtain ⟨herr, hid⟩ := finish_id_of_fits { s with seq := nextSeq s now } now later
    hw0 hw1 hd0 hd1 hq.1 hq.2 h0 (by show now - s.epoch ≤ 2199023255551; omega)
  refine ⟨_, hc, herr, ?_, ?_, ?_, ?_⟩
  · rw [hid]
    show 0 ≤ (now - s.epoch) * 4194304 + s.datacenter * 65536 + s.worker * 4096 + nextSeq s now
    omega
  · rw [hid]
    show (now - s.epoch) * 4194304 + s.datacenter * 65536 + s.worker * 4096 + nextSeq s now
      < 2 ^ 63
    omega
  · rw [hid]
    show (now - s.epoch) * 4194304 + s.datacenter * 65536 + s.worker * 4096 + nextSeq s now
      ≠ -1
    omega
  · show Except.ok ((CreateID s now later).map (fun r => r.id)) = _
    rw [hc]
    rfl

theorem CreateID_id_nonneg_witness :
    ∃ r, CreateID ⟨0, 2199023255551, 15, 63, 4094⟩ 2199023255551 [] = some r ∧ r.err = none ∧
      0 ≤ r.id ∧ r.id < 2 ^ 63 ∧ r.id ≠ -1 ∧
      ID (some ⟨0, 2199023255551, 15, 63, 4094⟩) 2199023255551 [] = Except.ok (some r.id) :=
  CreateID_id_nonneg ⟨0, 2199023255551, 15, 63, 4094⟩ 2199023255551 []
    (by decide) (by decide) (by decide) (by decide) (by decide) (by decide)

/-! ## Frame of `CreateID` -/

/-- C18: a `CreateID` call returns and leaves epoch, worker and datacenter as
they were, whether it returns an identifier or the overflow error. -/
theorem CreateID_frame (s : Snowflake) (now : Int) (later : List Int) :
    ∃ r, CreateID s now later = some r ∧ r.state.epoch = s.epoch ∧
      r.state.worker = s.worker ∧ r.state.datacenter = s.datacenter := by
  refine ⟨_, CreateID_eq_finish _ _ _, ?_⟩
  obtain ⟨_, he, hw, hd⟩ := finish_frame { s with seq := nextSeq s now } now later
  exact ⟨he, hw, hd⟩

/-! ## The bit-field constants -/

/-- C19: the constant expressions evaluate to `timestampMax = 2^41 - 1 = 2199023255551`,
`workerMax = 15`, `datacenterMax = 63`, `seqMax = 4095`, `workerShift = 12`,
`datacenterShift = 16`, `timestampShift = 22`; the four shifted masks are
pairwise disjoint and together fill exactly the low 63 bits. -/
theorem constants_spec :
    timestampMax = 2 ^ 41 - 1 ∧ timestampMax = 2199023255551 ∧
    workerMax = 15 ∧ datacenterMax = 63 ∧ seqMax = 4095 ∧
    workerShift = 12 ∧ datacenterShift = 16 ∧ timestampShift = 22 ∧
    timestampBits + datacenterBits + workerBits + seqBits = 63 ∧
    and64 (shl64 timestampMax timestampShift) (shl64 datacenterMax datacenterShift) = 0 ∧
    and64 (shl64 timestampMax timestampShift) (shl64 workerMax workerShift) = 0 ∧
    and64 (shl64 timestampMax timestampShift) seqMax = 0 ∧
    and64 (shl64 datacenterMax datacenterShift) (shl64 workerMax workerShift) = 0 ∧
    and64 (shl64 datacenterMax datacenterShift) seqMax = 0 ∧
    and64 (shl64 workerMax workerShift) seqMax = 0 ∧
    pack timestampMax datacenterMax workerMax seqMax = 2 ^ 63 - 1 := by
  decide

end SnowflakeGo
